import Mathlib

/-!
Shallow embedding of the signaling / chat client (client-react).

The call state machine is `Signaling.js`: React state hooks become fields of
`CallState`, refs (`localStreamRef`, `remoteStreamRef`, `peerConnectionRef`)
become `Option Nat` handle fields, and every handler returns the new state
together with the list of observable effects (signals emitted via `onSignal`,
handle releases, alerts).  Asynchronous browser capabilities (getUserMedia,
createOffer/createAnswer, the result of `window.confirm`) are modelled by
Boolean outcome parameters, matching the try/catch structure of the source.

The chat coordinator is the `Chat` component (src/unnamed/part_002): message
timeline, typing registry, typing debounce and the WebSocket lifecycle.
-/

namespace AgentFramework

/-- Call status values used by `Signaling.js` (`callStatus` state hook). -/
inductive CallStatus
  | idle
  | calling
  | connecting
  | connected
  | ended
deriving DecidableEq, Repr

/-- Signal discriminators appearing in `handleRemoteSignal`'s switch. -/
inductive SignalType
  | offer
  | answer
  | iceCandidate
  | callEnded
  | callRejected
  | unknown
deriving DecidableEq, Repr

/-- Inbound call signal: `signal.type`, opaque `signal.data` blob (descriptor
or candidate, modelled as a Nat), and `signal.from_user`. -/
structure InSignal where
  type : SignalType
  data : Nat
  fromUser : Option String
deriving DecidableEq, Repr

/-- Outbound call signal passed to `onSignal` in the source. -/
structure OutSignal where
  type : SignalType
  data : Option Nat
  targetUser : Option String
deriving DecidableEq, Repr

/-- Observable effects of the handlers in `Signaling.js`: track stops and
peer-connection closes (resource releases), descriptor/candidate application,
signals emitted through `onSignal`, alerts, and `onCallStateChange`. -/
inductive Effect
  | stopStream (id : Nat)
  | closePC (id : Nat)
  | setRemoteDescription (pc : Nat) (data : Nat)
  | addIceCandidate (pc : Nat) (data : Nat)
  | emit (s : OutSignal)
  | alert (msg : String)
  | callStateChange (active : Bool)
deriving DecidableEq, Repr

/-- Mirror of the component state of `Signaling.js`: the five useState hooks
and the three resource refs.  `fresh` allocates handle identities so that a
release can be matched to the handle it releases. -/
structure CallState where
  isInCall : Bool := false
  isConnecting : Bool := false
  isMuted : Bool := false
  callStatus : CallStatus := .idle
  remoteUserId : Option String := none
  localStream : Option Nat := none
  remoteStream : Option Nat := none
  peerConnection : Option Nat := none
  fresh : Nat := 0
deriving DecidableEq, Repr

/-- Embedding of `handleEndCall`: stop the local stream, stop the remote
stream, close the peer connection (each only if the ref is set, each ref is
then nulled), send `call-ended` when `isInCall && remoteUserId`, then reset
every state field and report `onCallStateChange(false)`. -/
def handleEndCall (st : CallState) : CallState × List Effect :=
  let effsLocal := match st.localStream with
    | some s => [Effect.stopStream s]
    | none => []
  let effsRemote := match st.remoteStream with
    | some s => [Effect.stopStream s]
    | none => []
  let effsPC := match st.peerConnection with
    | some p => [Effect.closePC p]
    | none => []
  let effsSignal :=
    if st.isInCall then
      match st.remoteUserId with
      | some r => [Effect.emit ⟨.callEnded, none, some r⟩]
      | none => []
    else []
  ({ st with
      isInCall := false, isConnecting := false, isMuted := false,
      callStatus := .idle, remoteUserId := none,
      localStream := none, remoteStream := none, peerConnection := none },
   effsLocal ++ effsRemote ++ effsPC ++ effsSignal ++ [Effect.callStateChange false])

/-- Embedding of `startCall(targetUserId)`.  `mediaOk` is the outcome of the
awaited `getUserMedia`, `offerOk` the outcome of `createOffer` /
`setLocalDescription`.  The source first sets connecting/calling/remote user,
then on success stores the stream ref, creates and stores the peer connection
ref, and emits the offer; the catch block only resets `isConnecting` and
`callStatus` and alerts — it releases nothing. -/
def startCall (targetUserId : Option String) (mediaOk offerOk : Bool)
    (st : CallState) : CallState × List Effect :=
  let st0 := { st with
    isConnecting := true, callStatus := .calling, remoteUserId := targetUserId }
  if mediaOk then
    let streamId := st0.fresh
    let st1 := { st0 with localStream := some streamId, fresh := st0.fresh + 1 }
    let pcId := st1.fresh
    let st2 := { st1 with peerConnection := some pcId, fresh := st1.fresh + 1 }
    if offerOk then
      (st2, [Effect.emit ⟨.offer, some pcId, targetUserId⟩])
    else
      ({ st2 with isConnecting := false, callStatus := .idle },
       [Effect.alert "Error starting call"])
  else
    ({ st0 with isConnecting := false, callStatus := .idle },
     [Effect.alert "Failed to access microphone. Please check permissions."])

/-- Embedding of `answerCall(offer, fromUserId)`: set connecting state, await
media (`mediaOk`), create the peer connection, apply the remote offer and
build the answer (`answerOk` covers `setRemoteDescription` through
`setLocalDescription`), emit the answer.  The catch block again only resets
`isConnecting`/`callStatus` and alerts. -/
def answerCall (offerData : Nat) (fromUserId : Option String)
    (mediaOk answerOk : Bool) (st : CallState) : CallState × List Effect :=
  let st0 := { st with
    isConnecting := true, callStatus := .connecting, remoteUserId := fromUserId }
  if mediaOk then
    let streamId := st0.fresh
    let st1 := { st0 with localStream := some streamId, fresh := st0.fresh + 1 }
    let pcId := st1.fresh
    let st2 := { st1 with peerConnection := some pcId, fresh := st1.fresh + 1 }
    if answerOk then
      (st2, [Effect.setRemoteDescription pcId offerData,
             Effect.emit ⟨.answer, some pcId, fromUserId⟩])
    else
      ({ st2 with isConnecting := false, callStatus := .idle },
       [Effect.alert "Failed to answer call"])
  else
    ({ st0 with isConnecting := false, callStatus := .idle },
     [Effect.alert "Failed to answer call"])

/-- Embedding of `handleRemoteSignal(signal)`.  The source begins with the
guard `if (!peerConnectionRef.current && (signal.type === 'offer' ||
signal.type === 'answer')) return;` and then switches on `signal.type`:
`offer` shows `window.confirm` (outcome `decision`) and either answers or
emits `call-rejected`; `answer`/`ice-candidate` apply to the existing peer
connection; `call-ended` calls `handleEndCall`; `call-rejected` resets
`isConnecting` and `callStatus` and alerts, releasing nothing. -/
def handleRemoteSignal (sig : InSignal) (decision mediaOk answerOk : Bool)
    (st : CallState) : CallState × List Effect :=
  if st.peerConnection = none ∧ (sig.type = .offer ∨ sig.type = .answer) then
    (st, [])
  else
    match sig.type with
    | .offer =>
        if decision then
          answerCall sig.data sig.fromUser mediaOk answerOk st
        else
          (st, [Effect.emit ⟨.callRejected, none, sig.fromUser⟩])
    | .answer =>
        match st.peerConnection with
        | some pc => (st, [Effect.setRemoteDescription pc sig.data])
        | none => (st, [])
    | .iceCandidate =>
        match st.peerConnection with
        | some pc => (st, [Effect.addIceCandidate pc sig.data])
        | none => (st, [])
    | .callEnded => handleEndCall st
    | .callRejected =>
        ({ st with isConnecting := false, callStatus := .idle },
         [Effect.alert "Call was rejected"])
    | .unknown => (st, [])

/-- An effect is a resource release when it stops a media stream or closes a
peer connection. -/
def isRelease : Effect → Bool
  | .stopStream _ => true
  | .closePC _ => true
  | _ => false

/-- Number of handles held by an optional ref (0 or 1). -/
def optCount : Option Nat → Nat
  | some _ => 1
  | none => 0

/-- Number of offer signals among a list of effects. -/
def offersIn (effs : List Effect) : Nat :=
  (effs.filter fun e =>
    match e with
    | .emit ⟨SignalType.offer, _, _⟩ => true
    | _ => false).length

/-- State after one successful `startCall` from the initial state: stream
handle 0, peer connection handle 1. -/
def afterFirstStartCall : CallState :=
  (startCall (some "u1") true true {}).1

/-- Message sender values used in the chat timeline. -/
inductive Sender
  | user
  | assistant
  | system
deriving DecidableEq, Repr

/-- Chat message record as appended to the `messages` state hook. -/
structure Message where
  id : Nat
  content : String
  sender : Sender
  timestamp : Nat
deriving DecidableEq, Repr

/-- Outbound transport envelopes produced by the `Chat` component:
`chat_message`, `typing`, `webrtc_signal`, `ping`. -/
inductive Envelope
  | chatMessage (message : String)
  | typing (isTyping : Bool)
  | webrtcSignal (signalType : SignalType) (data : Option Nat)
      (targetUser : Option String)
  | ping
deriving DecidableEq, Repr

/-- Inbound frames dispatched by `handleWebSocketMessage` in the `Chat`
component. -/
inductive WsIn
  | connectionEstablished (sessionId : String)
  | chatMessage (message : Message)
  | typingIndicator (userId : String) (isTyping : Bool)
  | webrtcSignal (signal : InSignal)
  | voiceData
  | serverError (message : String)
  | pong
  | unknown
deriving DecidableEq, Repr

/-- Chat component state: the `messages` timeline and the `typingUsers`
registry. -/
structure ChatState where
  messages : List Message := []
  typingUsers : List String := []
deriving DecidableEq, Repr

/-- Embedding of `handleTypingIndicator(data)`: on `is_typing` true the user
id is appended only when not already present; on false every occurrence of
the id is filtered out. -/
def handleTypingIndicator (userId : String) (isTyping : Bool)
    (prev : List String) : List String :=
  if isTyping then
    if userId ∈ prev then prev else prev ++ [userId]
  else
    prev.filter (fun id => id ≠ userId)

/-- Embedding of the chat cases of `handleWebSocketMessage(data)`:
`chat_message` appends to the timeline, `typing_indicator` updates the
registry; every other frame type leaves the chat state unchanged
(`webrtc_signal` is forwarded to the signaling component, the rest are
logged). -/
def handleWebSocketMessage (data : WsIn) (st : ChatState) : ChatState :=
  match data with
  | .chatMessage m => { st with messages := st.messages ++ [m] }
  | .typingIndicator uid t =>
      { st with typingUsers := handleTypingIndicator uid t st.typingUsers }
  | _ => st

/-- Outcome of the awaited `fetch` in `sendMessage`: still pending (the await
has not resolved, so no statement after it has run), resolved ok, or failed
(rejected or non-ok response; `errMsg` is the thrown message). -/
inductive FetchOutcome
  | pending
  | ok
  | fail (errMsg : String)
deriving DecidableEq, Repr

/-- Embedding of the guard `if (!content.trim()) return` in `sendMessage`:
the trimmed content is empty exactly when every character is whitespace. -/
def isBlank (s : String) : Bool :=
  s.data.all Char.isWhitespace

/-- Embedding of `sendMessage(content)`.  The source returns early when the
trimmed content is empty; otherwise it awaits the persistence POST, and only
after a successful response sends the `chat_message` envelope over the open
WebSocket.  Nothing before the await writes to `messages` (no optimistic
append).  The catch block appends exactly one system-sender error message and
performs no transport send. -/
def sendMessage (content : String) (outcome : FetchOutcome) (wsOpen : Bool)
    (now : Nat) (st : ChatState) : ChatState × List Envelope :=
  if isBlank content then (st, [])
  else
    match outcome with
    | .pending => (st, [])
    | .ok => (st, if wsOpen then [Envelope.chatMessage content] else [])
    | .fail errMsg =>
        ({ st with messages :=
            st.messages ++ [⟨now, "Error: " ++ errMsg, .system, now⟩] }, [])

/-- Typing debounce state of the `Chat` component: the `isTyping` hook and
whether a debounce timeout is armed (`typingTimeoutRef`). -/
structure TypingState where
  isTyping : Bool := false
  timerArmed : Bool := false
deriving DecidableEq, Repr

/-- Embedding of `sendTypingIndicator(typing)`: sends one `typing` envelope
when the WebSocket is open, nothing otherwise. -/
def sendTypingIndicator (wsOpen : Bool) (typing : Bool) : List Envelope :=
  if wsOpen then [Envelope.typing typing] else []

/-- Embedding of `handleTyping` (one keystroke): when `isTyping` is false it
is set and one `typing{true}` envelope is sent; any existing debounce timeout
is cleared and a fresh 1-second timeout is armed. -/
def handleTyping (wsOpen : Bool) (st : TypingState) :
    TypingState × List Envelope :=
  let fired :=
    if st.isTyping then ([] : List Envelope) else sendTypingIndicator wsOpen true
  ({ isTyping := true, timerArmed := true }, fired)

/-- Firing of the armed debounce timeout: resets `isTyping` and sends one
`typing{false}` envelope.  When no timeout is armed nothing happens. -/
def typingTimerFire (wsOpen : Bool) (st : TypingState) :
    TypingState × List Envelope :=
  if st.timerArmed then
    ({ isTyping := false, timerArmed := false }, sendTypingIndicator wsOpen false)
  else (st, [])

/-- Connection status values of the `connectionStatus` hook. -/
inductive ConnStatus
  | disconnected
  | connected
  | reconnecting
  | error
deriving DecidableEq, Repr

/-- Transport-session state: the status hook and whether the 3-second
reconnect timeout armed by `onclose` is pending. -/
structure ConnState where
  status : ConnStatus := .disconnected
  reconnectTimerArmed : Bool := false
deriving DecidableEq, Repr

/-- A connection attempt the transport could make (construction of a new
WebSocket). -/
inductive ConnAttempt
  | openWebSocket
deriving DecidableEq, Repr

/-- Embedding of `websocket.onclose`: sets status to disconnected and arms
the 3-second timeout.  No connection attempt is made here. -/
def onClose (st : ConnState) : ConnState × List ConnAttempt :=
  ({ st with status := .disconnected, reconnectTimerArmed := true }, [])

/-- Embedding of the body of the 3-second timeout armed by `onclose`: the
source runs `if (wsToken) setConnectionStatus('reconnecting')` and nothing
else — in particular it constructs no new WebSocket, so the returned attempt
list is empty.  The only place a WebSocket is constructed is the effect on
`wsToken`/`conversationId` change, which a status update does not re-run. -/
def reconnectTimerBody (wsToken : Bool) (st : ConnState) :
    ConnState × List ConnAttempt :=
  if wsToken then
    ({ st with status := .reconnecting, reconnectTimerArmed := false }, [])
  else
    ({ st with reconnectTimerArmed := false }, [])

/-- A connected call session: status connected, in an active call with user
u2, holding stream handles 0 and 1 and peer connection handle 2. -/
def connectedState : CallState :=
  { isInCall := true, isConnecting := false, isMuted := false,
    callStatus := .connected, remoteUserId := some "u2",
    localStream := some 0, remoteStream := some 1,
    peerConnection := some 2, fresh := 3 }

/-- The call-ended inbound signal. -/
def endSignal : InSignal := ⟨.callEnded, 0, none⟩

/-- C1: evaluation of `handleRemoteSignal` at the failing input.  An offer
arriving while the machine is idle (no peer-connection handle exists) is
dropped by the leading guard: no accept/reject decision is consulted, no
media is acquired, no answer or call-rejected signal is emitted, and the
state is unchanged — for every value of the user decision and of the media
and answer outcomes. -/
theorem offer_while_idle_dropped (decision mediaOk answerOk : Bool) :
    handleRemoteSignal ⟨.offer, 7, some "u2"⟩ decision mediaOk answerOk {} =
      ({}, []) := by
  rfl

/-- C2: an offer received while a call is connected is NOT ignored.  The
guard lets it through because a peer connection exists: when the user
declines the confirm dialog a call-rejected signal is emitted to the
offerer, and when the user accepts, the session state is overwritten and the
status leaves connected for connecting. -/
theorem offer_while_connected_not_ignored :
    (handleRemoteSignal ⟨.offer, 9, some "u3"⟩ false true true
        connectedState).2 =
      [Effect.emit ⟨.callRejected, none, some "u3"⟩] ∧
    (handleRemoteSignal ⟨.offer, 9, some "u3"⟩ true true true
        connectedState).1.callStatus = CallStatus.connecting := by
  constructor <;> rfl

/-- C3: the error path of `startCall` after the negotiation handle is
created, and the call-rejected path, both return the status to idle while
releasing neither the local media handle nor the peer-connection handle:
both refs are still set afterwards and the emitted effects contain no
stop/close. -/
theorem exit_paths_leak_handles :
    (startCall (some "u1") true false {}).1.callStatus = CallStatus.idle ∧
    (startCall (some "u1") true false {}).1.localStream = some 0 ∧
    (startCall (some "u1") true false {}).1.peerConnection = some 1 ∧
    ((startCall (some "u1") true false {}).2.filter isRelease) = [] ∧
    (handleRemoteSignal ⟨.callRejected, 0, some "u1"⟩ true true true
        afterFirstStartCall).1.callStatus = CallStatus.idle ∧
    (handleRemoteSignal ⟨.callRejected, 0, some "u1"⟩ true true true
        afterFirstStartCall).1.localStream = some 0 ∧
    (handleRemoteSignal ⟨.callRejected, 0, some "u1"⟩ true true true
        afterFirstStartCall).1.peerConnection = some 1 ∧
    ((handleRemoteSignal ⟨.callRejected, 0, some "u1"⟩ true true true
        afterFirstStartCall).2.filter isRelease) = [] := by
  decide

/-- C4: a call-ended signal, in every state and for every decision/outcome
parameter, drives the status to idle, clears the remote user and the mute
flag, nulls all three handle refs, performs exactly one release per handle
held (one stop per stream present, one close when a peer connection is
present), and a second call-ended arriving in the resulting state performs
no further release. -/
theorem callEnded_unconditional_teardown (st : CallState)
    (d m a : Bool) :
    (handleRemoteSignal endSignal d m a st).1.callStatus = CallStatus.idle ∧
    (handleRemoteSignal endSignal d m a st).1.remoteUserId = none ∧
    (handleRemoteSignal endSignal d m a st).1.isMuted = false ∧
    (handleRemoteSignal endSignal d m a st).1.localStream = none ∧
    (handleRemoteSignal endSignal d m a st).1.remoteStream = none ∧
    (handleRemoteSignal endSignal d m a st).1.peerConnection = none ∧
    ((handleRemoteSignal endSignal d m a st).2.filter isRelease).length =
      optCount st.localStream + optCount st.remoteStream +
        optCount st.peerConnection ∧
    ((handleRemoteSignal endSignal d m a
        (handleRemoteSignal endSignal d m a st).1).2.filter isRelease) = [] := by
  cases hl : st.localStream <;> cases hr : st.remoteStream <;>
    cases hp : st.peerConnection <;> cases hi : st.isInCall <;>
    cases hu : st.remoteUserId <;>
    simp [handleRemoteSignal, handleEndCall, endSignal, isRelease, optCount,
      hl, hr, hp, hi, hu, List.filter]

/-- C5: `startCall` has no idle guard.  A second invocation issued from the
state left by the first one proceeds: it emits a second offer signal (one
offer per invocation, two in total), overwrites the peer-connection ref
(handle 1 is replaced by handle 3) and releases nothing, so the first
session's handles leak and two sessions have been put in flight. -/
theorem double_startCall_sends_two_offers :
    offersIn (startCall (some "u1") true true {}).2 = 1 ∧
    offersIn (startCall (some "u2") true true afterFirstStartCall).2 = 1 ∧
    afterFirstStartCall.peerConnection = some 1 ∧
    afterFirstStartCall.callStatus = CallStatus.calling ∧
    (startCall (some "u2") true true afterFirstStartCall).1.peerConnection =
      some 3 ∧
    ((startCall (some "u2") true true afterFirstStartCall).2.filter
        isRelease) = [] := by
  decide

/-- Helper: one typing-indicator update preserves distinctness of the
registry. -/
lemma handleTypingIndicator_nodup (uid : String) (t : Bool)
    (prev : List String) (h : prev.Nodup) :
    (handleTypingIndicator uid t prev).Nodup := by
  cases t with
  | false =>
      simpa [handleTypingIndicator] using h.filter _
  | true =>
      by_cases hm : uid ∈ prev
      · simpa [handleTypingIndicator, hm] using h
      · simp [handleTypingIndicator, hm, List.nodup_append, h]

/-- Helper: folding any event sequence over the registry preserves
distinctness. -/
lemma foldl_handleTypingIndicator_nodup (events : List (String × Bool))
    (acc : List String) (h : acc.Nodup) :
    (events.foldl (fun r e => handleTypingIndicator e.1 e.2 r) acc).Nodup := by
  induction events generalizing acc with
  | nil => exact h
  | cons e rest ih => exact ih _ (handleTypingIndicator_nodup e.1 e.2 acc h)

/-- C6 counterexample: with the persistence call failing on
`submit("hello")`, the transport send is NOT attempted — the run emits no
envelope at all, even though the WebSocket is open — while exactly one
system-sender message is appended.  This falsifies the claim that the
transport send is attempted regardless of the persistence outcome. -/
theorem sendMessage_failure_skips_transport :
    (sendMessage "hello" (.fail "Failed to send message: 500") true 42
        {}).2 = [] ∧
    ((sendMessage "hello" (.fail "Failed to send message: 500") true 42
        {}).1.messages.filter (fun m => m.sender = Sender.system)).length
      = 1 := by
  decide

/-- C6 amended: when `submit(content)` runs with nonempty trimmed content and
the persistence call fails, exactly one system-sender message carrying the
failure reason is appended and no transport send occurs; the `chat_message`
envelope is sent only when persistence succeeds (and the socket is open), in
which case nothing is appended locally.  The two writes are sequential, not
independent. -/
theorem sendMessage_dual_write_sequential (content errMsg : String)
    (wsOpen : Bool) (now : Nat) (st : ChatState)
    (h : isBlank content = false) :
    (sendMessage content (.fail errMsg) wsOpen now st).1.messages =
      st.messages ++ [⟨now, "Error: " ++ errMsg, Sender.system, now⟩] ∧
    (sendMessage content (.fail errMsg) wsOpen now st).2 = [] ∧
    (sendMessage content .ok wsOpen now st).1 = st ∧
    (sendMessage content .ok true now st).2 =
      [Envelope.chatMessage content] := by
  simp [sendMessage, h]

/-- C6 witness: the amended statement evaluated for content "hello" and
failure reason "boom". -/
theorem sendMessage_dual_write_sequential_witness :
    isBlank "hello" = false ∧
    ((sendMessage "hello" (.fail "boom") true 5 {}).1.messages =
        [⟨5, "Error: boom", Sender.system, 5⟩] ∧
      (sendMessage "hello" (.fail "boom") true 5 {}).2 = [] ∧
      (sendMessage "hello" .ok true 5 {}).1 = {} ∧
      (sendMessage "hello" .ok true 5 {}).2 =
        [Envelope.chatMessage "hello"]) :=
  ⟨by decide,
   sendMessage_dual_write_sequential "hello" "boom" true 5 {} (by decide)⟩

/-- C7 counterexample: submitting "hello" performs no optimistic append.
While the persistence call is still pending the chat state is completely
unchanged: the timeline is still empty and in particular holds no message
with content "hello".  This falsifies the claim that the message appears in
the local timeline immediately. -/
theorem submit_no_optimistic_append :
    (sendMessage "hello" .pending true 0 {}).1 = {} ∧
    ((sendMessage "hello" .pending true 0 {}).1.messages.filter
        (fun m => m.content = "hello")) = [] := by
  decide

/-- C7 amended: a submitted message never enters the timeline from `submit`
itself — the state is untouched while the persistence call is pending, and
the message is appended only when it comes back as a `chat_message` frame
via `handleWebSocketMessage`; a persistence failure appends exactly one
system message and removes nothing that was already in the timeline. -/
theorem submit_message_appears_only_via_echo (content errMsg : String)
    (wsOpen : Bool) (now : Nat) (st : ChatState) (m : Message)
    (h : isBlank content = false) :
    (sendMessage content .pending wsOpen now st).1 = st ∧
    (handleWebSocketMessage (.chatMessage m) st).messages =
      st.messages ++ [m] ∧
    (sendMessage content (.fail errMsg) wsOpen now st).1.messages =
      st.messages ++ [⟨now, "Error: " ++ errMsg, Sender.system, now⟩] := by
  simp [sendMessage, handleWebSocketMessage, h]

/-- C7 witness: the amended statement evaluated for content "hi", a remote
echo of that message, and failure reason "oops". -/
theorem submit_message_appears_only_via_echo_witness :
    isBlank "hi" = false ∧
    ((sendMessage "hi" .pending true 3 {}).1 = {} ∧
      (handleWebSocketMessage
          (.chatMessage ⟨1, "hi", Sender.user, 2⟩) {}).messages =
        [⟨1, "hi", Sender.user, 2⟩] ∧
      (sendMessage "hi" (.fail "oops") true 3 {}).1.messages =
        [⟨3, "Error: oops", Sender.system, 3⟩]) :=
  ⟨by decide,
   submit_message_appears_only_via_echo "hi" "oops" true 3 {}
     ⟨1, "hi", Sender.user, 2⟩ (by decide)⟩

/-- C8: evaluation at the failing input.  After a remote close the status is
disconnected, and when the 3-second timer fires (with a token present) the
status becomes reconnecting — but neither step makes any connection attempt:
the attempt lists are empty, so the "next attempt" that the claim says can
succeed never exists and the status cannot reach connected again. -/
theorem reconnect_status_only_no_attempt :
    (onClose ⟨.connected, false⟩).1.status = ConnStatus.disconnected ∧
    (onClose ⟨.connected, false⟩).2 = [] ∧
    (reconnectTimerBody true (onClose ⟨.connected, false⟩).1).1.status =
      ConnStatus.reconnecting ∧
    (reconnectTimerBody true (onClose ⟨.connected, false⟩).1).2 = [] := by
  decide

/-- C9: the typing indicator is edge-triggered.  From any state with
`isTyping` false, two keystrokes in succession emit exactly one
`typing{true}` envelope (the second emits nothing), and the debounce timeout
then firing with no further keystroke emits exactly one `typing{false}`
envelope. -/
theorem setTyping_edge_triggered (st : TypingState)
    (h : st.isTyping = false) :
    (handleTyping true st).2 ++
        (handleTyping true (handleTyping true st).1).2 =
      [Envelope.typing true] ∧
    (typingTimerFire true
        (handleTyping true (handleTyping true st).1).1).2 =
      [Envelope.typing false] := by
  simp [handleTyping, typingTimerFire, sendTypingIndicator, h]

/-- C9 witness: the edge-trigger property evaluated from the initial typing
state. -/
theorem setTyping_edge_triggered_witness :
    (TypingState.mk false false).isTyping = false ∧
    ((handleTyping true ⟨false, false⟩).2 ++
        (handleTyping true (handleTyping true ⟨false, false⟩).1).2 =
      [Envelope.typing true] ∧
     (typingTimerFire true
        (handleTyping true (handleTyping true ⟨false, false⟩).1).1).2 =
      [Envelope.typing false]) :=
  ⟨rfl, setTyping_edge_triggered ⟨false, false⟩ rfl⟩

/-- C10: the typing registry never holds duplicates.  Every sequence of
typing-indicator events folded over the initially empty registry yields a
duplicate-free list, and an `is_typing = true` event for an identifier
already present leaves the registry unchanged. -/
theorem typingRegistry_no_duplicates :
    (∀ events : List (String × Bool),
        (events.foldl (fun r e => handleTypingIndicator e.1 e.2 r)
          ([] : List String)).Nodup) ∧
    (∀ (uid : String) (prev : List String), uid ∈ prev →
        handleTypingIndicator uid true prev = prev) := by
  constructor
  · exact fun events =>
      foldl_handleTypingIndicator_nodup events [] List.nodup_nil
  · intro uid prev hm
    simp [handleTypingIndicator, hm]

/-- C10 witness: the registry property evaluated on a concrete event
sequence with a repeated identifier. -/
theorem typingRegistry_no_duplicates_witness :
    ([("u1", true), ("u1", true), ("u2", false)].foldl
        (fun r e => handleTypingIndicator e.1 e.2 r)
        ([] : List String)).Nodup ∧
    handleTypingIndicator "u1" true ["u1", "u2"] = ["u1", "u2"] :=
  ⟨typingRegistry_no_duplicates.1 _,
   typingRegistry_no_duplicates.2 "u1" ["u1", "u2"] (by decide)⟩

end AgentFramework
